import Mathlib

/-!
Verification development for the tool-execution engine in
`src/code_tools.py`: shallow embeddings of the tool functions and proofs of
the behavioural properties stated in the specification.

File contents are modelled as lists of characters; the filesystem state
relevant to one call is passed explicitly, and each embedded tool returns
its reported outcome together with the state after the call.
-/

namespace CodeTools

/-- State of the path targeted by a file operation. -/
inductive FileState
  | absent
  | directory
  | file (content : List Char)
deriving DecidableEq

/-- Python `pat in s` (substring containment), as used by
`if old_string not in content` in `edit_tool`. -/
def containsSub (pat : List Char) : List Char → Bool
  | [] => pat.isEmpty
  | c :: rest => pat.isPrefixOf (c :: rest) || containsSub pat rest

/-- Helper for Python `s.count(pat)` with non-empty `pat`: counts
non-overlapping occurrences scanning left to right; `skip` is the number of
characters still covered by the occurrence counted last. -/
def countOccAux (pat : List Char) : Nat → List Char → Nat
  | _, [] => 0
  | skip + 1, _ :: rest => countOccAux pat skip rest
  | 0, c :: rest =>
    if pat ≠ [] ∧ pat.isPrefixOf (c :: rest) then
      1 + countOccAux pat (pat.length - 1) rest
    else
      countOccAux pat 0 rest

/-- Python `content.count(old_string)` for the non-empty `old_string` used in
`edit_tool`: the number of non-overlapping occurrences of `pat` in `s`. -/
def countOcc (pat s : List Char) : Nat := countOccAux pat 0 s

/-- Python `content.replace(old_string, new_string, 1)` for non-empty
`old_string`: replace the leftmost occurrence only. -/
def replaceFirst (pat new : List Char) : List Char → List Char
  | [] => []
  | c :: rest =>
    if pat.isPrefixOf (c :: rest) then new ++ (c :: rest).drop pat.length
    else c :: replaceFirst pat new rest

/-- Outcome reported by `edit_tool`; the Python function returns these as
distinct message strings. -/
inductive EditResult
  | created
  | ioError
  | fileNotExist
  | isDirectory
  | notFound
  | notUnique (occurrences : Nat)
  | success
deriving DecidableEq

/-- `edit_tool(file_path, old_string, new_string)` from `src/code_tools.py`,
acting on the state of the file at `file_path`: the reported outcome paired
with the state of that path after the call. The `old_string.isEmpty` branch
is the create-file path (`if not old_string`), where opening an existing
directory for writing raises and is reported by the surrounding handler. -/
def edit_tool (st : FileState) (old_string new_string : List Char) :
    EditResult × FileState :=
  if old_string.isEmpty then
    match st with
    | FileState.directory => (EditResult.ioError, FileState.directory)
    | FileState.absent => (EditResult.created, FileState.file new_string)
    | FileState.file _ => (EditResult.created, FileState.file new_string)
  else
    match st with
    | FileState.absent => (EditResult.fileNotExist, st)
    | FileState.directory => (EditResult.isDirectory, st)
    | FileState.file content =>
      if !containsSub old_string content then
        (EditResult.notFound, st)
      else if 1 < countOcc old_string content then
        (EditResult.notUnique (countOcc old_string content), st)
      else
        (EditResult.success,
          FileState.file (replaceFirst old_string new_string content))

theorem countOccAux_eq_zero (pat : List Char) {s : List Char}
    (h : containsSub pat s = false) : ∀ skip, countOccAux pat skip s = 0 := by
  induction s with
  | nil => intro skip; cases skip <;> rfl
  | cons c rest ih =>
    simp only [containsSub, Bool.or_eq_false_iff] at h
    intro skip
    cases skip with
    | zero =>
      rw [countOccAux, if_neg, ih h.2 0]
      rintro ⟨-, hpre⟩
      simp [h.1] at hpre
    | succ k => exact ih h.2 k

theorem one_le_countOcc (pat : List Char) (hne : pat ≠ []) :
    ∀ s : List Char, containsSub pat s = true → 1 ≤ countOcc pat s := by
  intro s
  induction s with
  | nil =>
    intro h
    simp [containsSub, List.isEmpty_iff, hne] at h
  | cons c rest ih =>
    intro h
    simp only [containsSub, Bool.or_eq_true] at h
    unfold countOcc countOccAux
    rcases h with hpre | hrest
    · rw [if_pos ⟨hne, hpre⟩]; omega
    · by_cases hcond : pat ≠ [] ∧ pat.isPrefixOf (c :: rest) = true
      · rw [if_pos hcond]; omega
      · rw [if_neg hcond]; exact ih hrest

theorem replaceFirst_spec (pat new : List Char) (hne : pat ≠ []) :
    ∀ s : List Char, containsSub pat s = true →
      ∃ a b, s = a ++ pat ++ b ∧ replaceFirst pat new s = a ++ new ++ b := by
  intro s
  induction s with
  | nil =>
    intro h
    simp [containsSub, List.isEmpty_iff, hne] at h
  | cons c rest ih =>
    intro h
    simp only [containsSub, Bool.or_eq_true] at h
    by_cases hpre : pat.isPrefixOf (c :: rest) = true
    · have hsplit : pat ++ List.drop pat.length (c :: rest) = c :: rest :=
        List.prefix_iff_eq_append.mp (List.isPrefixOf_iff_prefix.mp hpre)
      refine ⟨[], List.drop pat.length (c :: rest), ?_, ?_⟩
      · simp [hsplit]
      · rw [replaceFirst, if_pos hpre]; simp
    · have hrest : containsSub pat rest = true := by
        rcases h with hpre2 | hrest
        · exact absurd hpre2 hpre
        · exact hrest
      obtain ⟨a, b, hab, hrepl⟩ := ih hrest
      refine ⟨c :: a, b, by simp [hab], ?_⟩
      rw [replaceFirst, if_neg hpre, hrepl]
      simp

/-- Claim C1: for an existing non-directory file whose content contains a
non-empty `old_string` exactly once, `edit_tool` performs a pure
single-occurrence substitution — the resulting content is the original with
that one occurrence of `old_string` replaced by `new_string` — and reports
success. -/
theorem C1_edit_unique_substitution (content old_string new_string : List Char)
    (hne : old_string ≠ []) (hcount : countOcc old_string content = 1) :
    ∃ a b,
      content = a ++ old_string ++ b ∧
      edit_tool (FileState.file content) old_string new_string =
        (EditResult.success, FileState.file (a ++ new_string ++ b)) := by
  have hcontains : containsSub old_string content = true := by
    cases hc : containsSub old_string content with
    | true => rfl
    | false =>
      have := countOccAux_eq_zero old_string hc 0
      simp only [countOcc] at hcount
      omega
  obtain ⟨a, b, hab, hrepl⟩ := replaceFirst_spec old_string new_string hne content hcontains
  refine ⟨a, b, hab, ?_⟩
  have hempty : old_string.isEmpty = false := by
    simp [List.isEmpty_iff, hne]
  simp [edit_tool, hempty, hcontains, hcount, hrepl]

/-- Witness for C1 at a concrete input. -/
theorem C1_edit_unique_substitution_witness :
    "world".toList ≠ [] ∧
    countOcc "world".toList "hello world".toList = 1 ∧
    ∃ a b,
      "hello world".toList = a ++ "world".toList ++ b ∧
      edit_tool (FileState.file "hello world".toList) "world".toList "there".toList =
        (EditResult.success, FileState.file (a ++ "there".toList ++ b)) :=
  ⟨by decide, by decide,
    C1_edit_unique_substitution "hello world".toList "world".toList "there".toList
      (by decide) (by decide)⟩

/-- Claim C2: for an existing non-directory file and non-empty `old_string`,
zero occurrences report the NotFound condition and leave the content
unchanged, two or more occurrences report the NotUnique condition and leave
the content unchanged, and the two failure conditions are distinct. -/
theorem C2_edit_failure_conditions (content old_string new_string : List Char)
    (hne : old_string ≠ []) :
    (countOcc old_string content = 0 →
      edit_tool (FileState.file content) old_string new_string =
        (EditResult.notFound, FileState.file content)) ∧
    (2 ≤ countOcc old_string content →
      edit_tool (FileState.file content) old_string new_string =
        (EditResult.notUnique (countOcc old_string content), FileState.file content)) ∧
    (∀ n, EditResult.notFound ≠ EditResult.notUnique n) := by
  have hempty : old_string.isEmpty = false := by
    simp [List.isEmpty_iff, hne]
  refine ⟨?_, ?_, ?_⟩
  · intro hzero
    have hcontains : containsSub old_string content = false := by
      cases hc : containsSub old_string content with
      | false => rfl
      | true =>
        have := one_le_countOcc old_string hne content hc
        omega
    simp [edit_tool, hempty, hcontains]
  · intro hmulti
    have hcontains : containsSub old_string content = true := by
      cases hc : containsSub old_string content with
      | true => rfl
      | false =>
        have := countOccAux_eq_zero old_string hc 0
        simp only [countOcc] at hmulti
        omega
    simp [edit_tool, hempty, hcontains]
    omega
  · intro n h
    exact EditResult.noConfusion h

/-- Witness for C2 at a concrete input. -/
theorem C2_edit_failure_conditions_witness :
    "ab".toList ≠ [] ∧
    ((countOcc "ab".toList "xabyab".toList = 0 →
      edit_tool (FileState.file "xabyab".toList) "ab".toList "Q".toList =
        (EditResult.notFound, FileState.file "xabyab".toList)) ∧
    (2 ≤ countOcc "ab".toList "xabyab".toList →
      edit_tool (FileState.file "xabyab".toList) "ab".toList "Q".toList =
        (EditResult.notUnique (countOcc "ab".toList "xabyab".toList),
          FileState.file "xabyab".toList)) ∧
    (∀ n, EditResult.notFound ≠ EditResult.notUnique n)) :=
  ⟨by decide,
    C2_edit_failure_conditions "xabyab".toList "ab".toList "Q".toList (by decide)⟩

/-- Word character for the regex `\b` boundary (the ASCII core of `\w`);
every entry of the denylist begins and ends with a word character. -/
def isWordChar (c : Char) : Bool := c.isAlphanum || c = '_'

/-- Boundary test for the position before a candidate match: start of the
string, or a non-word character. -/
def boundaryBefore : Option Char → Bool
  | none => true
  | some c => !isWordChar c

/-- Boundary test for the position after a candidate match: end of the
string, or a non-word character. -/
def boundaryAfter : List Char → Bool
  | [] => true
  | c :: _ => !isWordChar c

/-- One step of the scan `re.search` performs for the pattern made of a
regex-escaped denylist entry between two word boundaries: the entry occurs
literally at some position with word boundaries on both sides (`prev` is the
character just before the current position). -/
def wordMatchFrom (pat : List Char) (prev : Option Char) : List Char → Bool
  | [] => false
  | c :: rest =>
    (boundaryBefore prev && pat.isPrefixOf (c :: rest) &&
      boundaryAfter ((c :: rest).drop pat.length)) ||
    wordMatchFrom pat (some c) rest

/-- Whole-word occurrence of a denylist entry in the raw command string. -/
def hasWholeWord (pat command : List Char) : Bool :=
  wordMatchFrom pat none command

/-- The fixed denylist of networking/browser-launching binary names from
`bash_tool`. -/
def banned_commands : List String :=
  ["alias", "curl", "curlie", "wget", "axel", "aria2c", "nc", "telnet",
   "lynx", "w3m", "links", "httpie", "xh", "http-prompt", "chrome",
   "firefox", "safari"]

/-- First denylist entry whose whole-word pattern matches the command, if
any (the `for banned in banned_commands` loop). -/
def bannedHit (command : String) : Option String :=
  banned_commands.find? (fun b => hasWholeWord b.toList command.toList)

/-- Effective timeout budget of `bash_tool` in seconds: the default is 1800,
and a supplied timeout is honoured only when truthy (`if timeout:`), giving
`min(timeout / 1000, 600)`. -/
def bashEffectiveTimeout (timeout : Option Nat) : ℚ :=
  match timeout with
  | none => 1800
  | some t => if t = 0 then 1800 else min ((t : ℚ) / 1000) 600

/-- Observable behaviour the spawned shell process would have: wall-clock
running time and what it would produce. -/
structure ProcBehavior where
  duration : ℚ
  exitCode : Int
  stdout : String
  stderr : String

/-- The `output` convenience field of a completed command: stdout, with
stderr appended after a newline when stderr is non-empty. -/
def bashOutput (out err : String) : String :=
  out ++ (if err = "" then "" else "\n" ++ err)

/-- Result of a `bash_tool` call. `timedOut` carries only the budget: the
error dictionary returned on timeout contains no stdout or stderr. -/
inductive BashResult
  | policyDenied (banned : String)
  | timedOut (budgetSeconds : ℚ)
  | completed (exitCode : Int) (stdout stderr output : String)
deriving DecidableEq

/-- `bash_tool(command, timeout)` from `src/code_tools.py`. The subprocess
itself is external; `proc` describes how the spawned process would behave.
The second component records whether a process was spawned at all: the
denylist scan runs before any spawn, and a denied command spawns nothing. -/
def bash_tool (command : String) (timeout : Option Nat) (proc : ProcBehavior) :
    BashResult × Bool :=
  let max_timeout := bashEffectiveTimeout timeout
  match bannedHit command with
  | some b => (BashResult.policyDenied b, false)
  | none =>
    if proc.duration ≤ max_timeout then
      (BashResult.completed proc.exitCode proc.stdout proc.stderr
        (bashOutput proc.stdout proc.stderr), true)
    else
      (BashResult.timedOut max_timeout, true)

/-- Claim C3: a command containing a whole-word match of any denylist entry
is refused with a policy-denied error, and no process is ever spawned — the
denylist scan precedes any spawn. -/
theorem C3_bash_denylist (command : String) (timeout : Option Nat)
    (proc : ProcBehavior)
    (h : ∃ b ∈ banned_commands, hasWholeWord b.toList command.toList = true) :
    ∃ b ∈ banned_commands,
      bash_tool command timeout proc = (BashResult.policyDenied b, false) := by
  have hsome : (bannedHit command).isSome := by
    rw [bannedHit, List.find?_isSome]
    obtain ⟨b, hb, hw⟩ := h
    exact ⟨b, hb, hw⟩
  obtain ⟨b, hb⟩ := Option.isSome_iff_exists.mp hsome
  refine ⟨b, ?_, ?_⟩
  · exact List.mem_of_find?_eq_some hb
  · simp [bash_tool, hb]

/-- Witness for C3: `bash("curl http://example.com")` is policy-denied and
spawns no process. -/
theorem C3_bash_denylist_witness :
    (∃ b ∈ banned_commands,
      hasWholeWord b.toList "curl http://example.com".toList = true) ∧
    ∃ b ∈ banned_commands,
      bash_tool "curl http://example.com" none ⟨1, 0, "", ""⟩ =
        (BashResult.policyDenied b, false) :=
  ⟨by decide, C3_bash_denylist "curl http://example.com" none ⟨1, 0, "", ""⟩ (by decide)⟩

/-- Counterexample to claim C4 as stated: with a supplied timeout of 0
milliseconds the effective budget is the 1800-second default, not the
formula value `min(0 / 1000, 600) = 0` — so a 5-second command requested
with a 0 ms timeout completes instead of timing out. -/
theorem C4_timeout_counterexample :
    bashEffectiveTimeout (some 0) = 1800 ∧
    min ((0 : ℚ) / 1000) 600 = 0 ∧
    (1800 : ℚ) ≠ 0 ∧
    bash_tool "sleep 5" (some 0) ⟨5, 0, "", ""⟩ =
      (BashResult.completed 0 "" "" "", true) := by
  have hb : bannedHit "sleep 5" = none := by decide
  refine ⟨rfl, by norm_num, by norm_num, ?_⟩
  simp [bash_tool, hb, bashEffectiveTimeout, bashOutput]
  norm_num

/-- Claim C4 (amended): the effective budget is `min(requested/1000, 600)`
seconds when a non-zero timeout is supplied and 1800 seconds when the
timeout is unspecified (a zero timeout also selects the default, see C10);
a command passing the denylist that does not complete within the budget is
terminated and reported as a timeout, the result carrying no partial stdout
or stderr. -/
theorem C4_timeout_contract (command : String) (t : Nat) (timeout : Option Nat)
    (proc : ProcBehavior) (ht : t ≠ 0)
    (hclean : bannedHit command = none)
    (hslow : bashEffectiveTimeout timeout < proc.duration) :
    bashEffectiveTimeout (some t) = min ((t : ℚ) / 1000) 600 ∧
    bashEffectiveTimeout none = 1800 ∧
    bash_tool command timeout proc =
      (BashResult.timedOut (bashEffectiveTimeout timeout), true) := by
  refine ⟨by simp [bashEffectiveTimeout, ht], rfl, ?_⟩
  simp [bash_tool, hclean, not_le.mpr hslow]

/-- Witness for C4 (amended): a 100 ms requested timeout gives a 0.1 s
budget; a 5-second command is reported as a timeout and its stdout is not
returned. -/
theorem C4_timeout_contract_witness :
    ((5000 : Nat) ≠ 0) ∧ bannedHit "sleep 5" = none ∧
    bashEffectiveTimeout (some 100) < (5 : ℚ) ∧
    (bashEffectiveTimeout (some 5000) = min ((5000 : ℚ) / 1000) 600 ∧
     bashEffectiveTimeout none = 1800 ∧
     bash_tool "sleep 5" (some 100) ⟨5, 0, "partial", ""⟩ =
       (BashResult.timedOut (bashEffectiveTimeout (some 100)), true)) :=
  ⟨by decide, by decide, by norm_num [bashEffectiveTimeout],
    C4_timeout_contract "sleep 5" 5000 (some 100) ⟨5, 0, "partial", ""⟩
      (by decide) (by decide) (by norm_num [bashEffectiveTimeout])⟩

/-- Claim C10: a supplied timeout of 0 milliseconds behaves exactly like an
unspecified timeout — `if timeout:` is false for 0, so the default
1800-second budget applies rather than `min(0/1000, 600) = 0`. -/
theorem C10_zero_timeout_default (command : String) (proc : ProcBehavior)
    (hclean : bannedHit command = none) :
    bashEffectiveTimeout (some 0) = 1800 ∧
    bash_tool command (some 0) proc = bash_tool command none proc ∧
    (bash_tool command (some 0) proc).2 = true := by
  refine ⟨rfl, by simp [bash_tool, bashEffectiveTimeout], ?_⟩
  by_cases hd : proc.duration ≤ bashEffectiveTimeout (some 0)
  · simp [bash_tool, hclean, hd]
  · simp [bash_tool, hclean, hd]

/-- Witness for C10 at a concrete input. -/
theorem C10_zero_timeout_default_witness :
    bannedHit "echo hi" = none ∧
    (bashEffectiveTimeout (some 0) = 1800 ∧
     bash_tool "echo hi" (some 0) ⟨1, 0, "hi\n", ""⟩ =
       bash_tool "echo hi" none ⟨1, 0, "hi\n", ""⟩ ∧
     (bash_tool "echo hi" (some 0) ⟨1, 0, "hi\n", ""⟩).2 = true) :=
  ⟨by decide, C10_zero_timeout_default "echo hi" ⟨1, 0, "hi\n", ""⟩ (by decide)⟩

/-- One invocation submitted to `batch_tool`: a tool name and an input
mapping (inputs are abstract here). -/
structure Invocation (I : Type) where
  tool_name : String
  input : I

/-- Per-invocation entry of a batch result: `{tool_name, status: success,
result}` or `{tool_name, status: error, error}`. -/
inductive InvocationResult (R : Type)
  | success (tool_name : String) (result : R)
  | error (tool_name : String) (error_message : String)
deriving DecidableEq

/-- The names in `tools_map`, the registry of tools eligible inside a
batch; `batch_tool` itself is absent from it. -/
def tools_map_names : List String :=
  ["glob_tool", "grep_tool", "ls_tool", "view_tool", "edit_tool",
   "replace_tool", "bash_tool", "notebook_read_tool", "notebook_edit_tool",
   "agent_tool"]

/-- `execute_tool(invocation)` from inside `batch_tool`: an unknown tool
name yields an error entry; otherwise the tool is awaited, `run` abstracting
that execution, with `Except.error` standing for a raised exception, which
the surrounding handler converts into an error entry. -/
def execute_tool {I R : Type} (run : String → I → Except String R)
    (inv : Invocation I) : InvocationResult R :=
  if inv.tool_name ∈ tools_map_names then
    match run inv.tool_name inv.input with
    | Except.ok r => InvocationResult.success inv.tool_name r
    | Except.error e =>
        InvocationResult.error inv.tool_name
          ("Error executing " ++ inv.tool_name ++ ": " ++ e)
  else
    InvocationResult.error inv.tool_name ("Tool not found: " ++ inv.tool_name)

/-- Aggregate result of `batch_tool` (`{description, results}`); the results
list is in original submission order, as `asyncio.gather` returns outcomes
in the order the tasks were submitted. -/
structure BatchResult (R : Type) where
  description : String
  results : List (InvocationResult R)

/-- `batch_tool(description, invocations)` from `src/code_tools.py`. -/
def batch_tool {I R : Type} (run : String → I → Except String R)
    (description : String) (invocations : List (Invocation I)) :
    BatchResult R :=
  { description := description
    results := invocations.map (execute_tool run) }

/-- Whether a per-invocation entry has error status. -/
def isErrorEntry {R : Type} : InvocationResult R → Bool
  | InvocationResult.error _ _ => true
  | InvocationResult.success _ _ => false

/-- The tool name recorded in a per-invocation entry. -/
def entryToolName {R : Type} : InvocationResult R → String
  | InvocationResult.error n _ => n
  | InvocationResult.success n _ => n

theorem entryToolName_execute_tool {I R : Type}
    (run : String → I → Except String R) (inv : Invocation I) :
    entryToolName (execute_tool run inv) = inv.tool_name := by
  unfold execute_tool
  by_cases hmem : inv.tool_name ∈ tools_map_names
  · rw [if_pos hmem]
    cases run inv.tool_name inv.input <;> rfl
  · rw [if_neg hmem]; rfl

theorem length_filter_bool_split {α : Type} (p : α → Bool) (l : List α) :
    (l.filter p).length + (l.filter (fun a => !p a)).length = l.length := by
  induction l with
  | nil => rfl
  | cons a rest ih =>
    simp only [List.filter_cons]
    cases hp : p a <;> simp [hp, ← ih] <;> omega

theorem batch_error_count {I R : Type} (run : String → I → Except String R)
    (invocations : List (Invocation I))
    (hok : ∀ inv ∈ invocations, inv.tool_name ∈ tools_map_names →
      ∃ r, run inv.tool_name inv.input = Except.ok r) :
    ((invocations.map (execute_tool run)).filter isErrorEntry).length =
      (invocations.filter
        (fun inv => inv.tool_name ∉ tools_map_names)).length := by
  induction invocations with
  | nil => rfl
  | cons inv rest ih =>
    have hrest := fun i hi => hok i (List.mem_cons_of_mem _ hi)
    simp only [List.map_cons, List.filter_cons]
    by_cases hmem : inv.tool_name ∈ tools_map_names
    · obtain ⟨r, hr⟩ := hok inv (List.mem_cons_self _ _) hmem
      simp [execute_tool, hmem, hr, isErrorEntry, ih hrest]
    · simp [execute_tool, hmem, isErrorEntry, ih hrest]

/-- Claim C5: a batch call with N invocations yields exactly N
per-invocation entries in original submission order; any invocation whose
tool name is not in the registry (which excludes `batch_tool` itself)
produces a per-invocation error entry without aborting the rest, so with
exactly one unknown tool name — the registered invocations executing
without fault — there is exactly one error entry and N-1 non-error
entries. -/
theorem C5_batch_dispatch {I R : Type} (run : String → I → Except String R)
    (description : String) (invocations : List (Invocation I))
    (hone : (invocations.filter
      (fun inv => inv.tool_name ∉ tools_map_names)).length = 1)
    (hok : ∀ inv ∈ invocations, inv.tool_name ∈ tools_map_names →
      ∃ r, run inv.tool_name inv.input = Except.ok r) :
    (batch_tool run description invocations).results.length =
      invocations.length ∧
    (∀ i : Nat,
      ((batch_tool run description invocations).results[i]?).map entryToolName =
        (invocations[i]?).map Invocation.tool_name) ∧
    (∀ i : Nat, ∀ inv, invocations[i]? = some inv →
      inv.tool_name ∉ tools_map_names →
      ∃ e, (batch_tool run description invocations).results[i]? =
        some (InvocationResult.error inv.tool_name e)) ∧
    "batch_tool" ∉ tools_map_names ∧
    ((batch_tool run description invocations).results.filter
      isErrorEntry).length = 1 ∧
    ((batch_tool run description invocations).results.filter
      (fun r => !isErrorEntry r)).length = invocations.length - 1 := by
  have herr : ((batch_tool run description invocations).results.filter
      isErrorEntry).length = 1 := by
    rw [batch_tool]
    rw [batch_error_count run invocations hok]
    exact hone
  have hlen : (batch_tool run description invocations).results.length =
      invocations.length := by
    simp [batch_tool]
  refine ⟨hlen, ?_, ?_, by decide, herr, ?_⟩
  · intro i
    simp only [batch_tool, List.getElem?_map]
    cases invocations[i]? with
    | none => rfl
    | some inv => simp [entryToolName_execute_tool]
  · intro i inv hi hmem
    refine ⟨"Tool not found: " ++ inv.tool_name, ?_⟩
    simp only [batch_tool, List.getElem?_map, hi, Option.map_some]
    simp [execute_tool, hmem]
  · have hsplit := length_filter_bool_split isErrorEntry
      (batch_tool run description invocations).results
    omega

/-- Witness for C5: a two-invocation batch whose second entry names an
unknown tool. -/
theorem C5_batch_dispatch_witness :
    (([⟨"glob_tool", ()⟩, ⟨"magic_tool", ()⟩] : List (Invocation Unit)).filter
      (fun inv => inv.tool_name ∉ tools_map_names)).length = 1 ∧
    ((batch_tool (fun _ _ => Except.ok ()) "demo"
        [⟨"glob_tool", ()⟩, ⟨"magic_tool", ()⟩]).results.length =
      ([⟨"glob_tool", ()⟩, ⟨"magic_tool", ()⟩] : List (Invocation Unit)).length ∧
    (∀ i : Nat,
      ((batch_tool (fun _ _ => Except.ok ()) "demo"
          [⟨"glob_tool", ()⟩, ⟨"magic_tool", ()⟩]).results[i]?).map entryToolName =
        ((([⟨"glob_tool", ()⟩, ⟨"magic_tool", ()⟩] :
          List (Invocation Unit)))[i]?).map Invocation.tool_name) ∧
    (∀ i : Nat, ∀ inv,
      (([⟨"glob_tool", ()⟩, ⟨"magic_tool", ()⟩] :
        List (Invocation Unit)))[i]? = some inv →
      inv.tool_name ∉ tools_map_names →
      ∃ e, (batch_tool (fun _ _ => Except.ok ()) "demo"
          [⟨"glob_tool", ()⟩, ⟨"magic_tool", ()⟩]).results[i]? =
        some (InvocationResult.error inv.tool_name e)) ∧
    "batch_tool" ∉ tools_map_names ∧
    ((batch_tool (fun _ _ => Except.ok ()) "demo"
        [⟨"glob_tool", ()⟩, ⟨"magic_tool", ()⟩]).results.filter
      isErrorEntry).length = 1 ∧
    ((batch_tool (fun _ _ => Except.ok ()) "demo"
        [⟨"glob_tool", ()⟩, ⟨"magic_tool", ()⟩]).results.filter
      (fun r => !isErrorEntry r)).length =
      ([⟨"glob_tool", ()⟩, ⟨"magic_tool", ()⟩] :
        List (Invocation Unit)).length - 1) :=
  ⟨by decide,
    C5_batch_dispatch (fun _ _ => Except.ok ()) "demo"
      [⟨"glob_tool", ()⟩, ⟨"magic_tool", ()⟩] (by decide)
      (fun inv _ _ => ⟨(), rfl⟩)⟩

/-- Sort key used by `glob_tool`:
`os.path.getmtime(f) if os.path.exists(f) else 0`. `mtime f = none` models a
file missing at sort time; existing files have natural-number timestamps. -/
def globSortKey (mtime : String → Option Nat) (f : String) : Nat :=
  (mtime f).getD 0

/-- `matching_files.sort(key=..., reverse=True)`: a stable sort by
descending sort key. -/
def globSorted (mtime : String → Option Nat) (files : List String) :
    List String :=
  files.mergeSort (fun a b => decide (globSortKey mtime b ≤ globSortKey mtime a))

/-- Result dictionary of `glob_tool`; the wall-clock `durationMs` field is
not modelled. -/
structure GlobResult where
  filenames : List String
  numFiles : Nat
  truncated : Bool
deriving DecidableEq

/-- `glob_tool(pattern, path)` from `src/code_tools.py`, applied to the raw
match list produced by `glob.glob` for the pattern under the search path
(the filesystem walk itself is external to this core): sort by descending
modification time, record whether the raw count exceeds the cap, keep the
first 100. -/
def glob_tool (mtime : String → Option Nat) (raw : List String) : GlobResult :=
  let sorted := globSorted mtime raw
  let truncated := decide (100 < sorted.length)
  let limited := sorted.take 100
  { filenames := limited
    numFiles := limited.length
    truncated := truncated }

/-- Claim C6: `glob_tool` returns at most 100 entries, sorted by descending
modification time with files missing at sort time ranking as oldest
(key 0), and the truncated flag is true iff the raw match count exceeds
100. -/
theorem C6_glob_cap_sort_truncation (mtime : String → Option Nat)
    (raw : List String) :
    (glob_tool mtime raw).filenames.length ≤ 100 ∧
    (glob_tool mtime raw).filenames.Pairwise
      (fun a b => globSortKey mtime b ≤ globSortKey mtime a) ∧
    ((glob_tool mtime raw).truncated = true ↔ 100 < raw.length) := by
  refine ⟨?_, ?_, ?_⟩
  · simp only [glob_tool]
    exact List.length_take_le 100 _
  · have hsorted := @List.sorted_mergeSort String
      (fun a b => decide (globSortKey mtime b ≤ globSortKey mtime a))
      (fun a b c hab hbc => by
        simp only [decide_eq_true_eq] at hab hbc ⊢
        exact le_trans hbc hab)
      (fun a b => by
        simp only [Bool.or_eq_true, decide_eq_true_eq]
        exact le_total (globSortKey mtime b) (globSortKey mtime a))
      raw
    have hpair : (globSorted mtime raw).Pairwise
        (fun a b => globSortKey mtime b ≤ globSortKey mtime a) := by
      refine hsorted.imp ?_
      intro a b h
      simpa using h
    simp only [glob_tool]
    exact List.Pairwise.sublist (List.take_sublist 100 _) hpair
  · simp only [glob_tool, decide_eq_true_eq]
    rw [globSorted, List.length_mergeSort]

/-- A notebook cell as persisted in the `.ipynb` JSON. `outputs` and
`execution_count` are optional keys (present only on code cells);
a present `execution_count` may be null (`some none`). Output objects and
metadata values are treated as plain strings here. -/
structure Cell where
  cell_type : String
  source : List String
  metadata : List (String × String)
  outputs : Option (List String)
  execution_count : Option (Option Int)
deriving DecidableEq

/-- A notebook document: an ordered cell sequence plus metadata and the
format version fields. -/
structure Notebook where
  cells : List Cell
  metadata : List (String × String)
  nbformat : Nat
  nbformat_minor : Nat
deriving DecidableEq

/-- The default document synthesized when inserting into a nonexistent
notebook: empty cell sequence, default metadata (its kernelspec and
language_info JSON objects summarised as tagged entries), nbformat 4.4. -/
def defaultNotebook : Notebook :=
  { cells := []
    metadata := [("kernelspec", "python3"), ("language_info", "python")]
    nbformat := 4
    nbformat_minor := 4 }

/-- Python `cell_type or existing_type`: `None` and the empty string are
both falsy, so either falls back to the existing type. -/
def pyOrStr (a : Option String) (b : String) : String :=
  match a with
  | none => b
  | some s => if s = "" then b else s

/-- Python `if not cell_type:` — true for `None` and for the empty
string. -/
def pyStrFalsy (a : Option String) : Bool :=
  match a with
  | none => true
  | some s => s = ""

/-- Outcome reported by `notebook_edit_tool`; the Python function returns
these as distinct message strings (the inserted position is the clamped
one, as the clamped `cell_number` is interpolated into the message). -/
inductive NbEditResult
  | notExist
  | notIpynb
  | negativeCellNumber (n : Int)
  | cellMissing (n : Int)
  | cellTypeRequired
  | invalidMode (mode : String)
  | replaced (n : Int)
  | inserted (cell_type : String) (position : Nat)
  | deleted (cell_type : String) (position : Nat)
deriving DecidableEq

/-- `notebook_edit_tool(notebook_path, cell_number, new_source, cell_type,
edit_mode)` from `src/code_tools.py`. `doc` is the parsed notebook at the
path (`none` when the file does not exist) and `isIpynb` whether the path
ends in `.ipynb`. Returns the reported outcome and the state of the
notebook file after the call (unchanged on every error path: the document
is re-serialized only after a successful mutation). -/
def notebook_edit_tool (doc : Option Notebook) (isIpynb : Bool)
    (cell_number : Int) (new_source : String) (cell_type : Option String)
    (edit_mode : String) : NbEditResult × Option Notebook :=
  if doc = none ∧ edit_mode ≠ "insert" then (NbEditResult.notExist, doc)
  else if !isIpynb then (NbEditResult.notIpynb, doc)
  else
    let notebook := doc.getD defaultNotebook
    if cell_number < 0 then (NbEditResult.negativeCellNumber cell_number, doc)
    else if edit_mode = "replace" then
      if h : cell_number.toNat < notebook.cells.length then
        let existing := notebook.cells.get ⟨cell_number.toNat, h⟩
        let ctype := pyOrStr cell_type existing.cell_type
        let updated :=
          if ctype = "code" then
            { existing with
                source := new_source.splitOn "\n"
                cell_type := ctype
                outputs := some []
                execution_count := some none }
          else
            { existing with
                source := new_source.splitOn "\n"
                cell_type := ctype }
        (NbEditResult.replaced cell_number,
          some { notebook with
                  cells := notebook.cells.set cell_number.toNat updated })
      else (NbEditResult.cellMissing cell_number, doc)
    else if edit_mode = "insert" then
      if pyStrFalsy cell_type then (NbEditResult.cellTypeRequired, doc)
      else
        let ctype := cell_type.getD ""
        let new_cell : Cell :=
          { cell_type := ctype
            source := new_source.splitOn "\n"
            metadata := []
            outputs := if ctype = "code" then some [] else none
            execution_count := if ctype = "code" then some none else none }
        let pos :=
          if notebook.cells.length < cell_number.toNat then
            notebook.cells.length
          else cell_number.toNat
        (NbEditResult.inserted ctype pos,
          some { notebook with cells := notebook.cells.insertIdx pos new_cell })
    else if edit_mode = "delete" then
      if h : cell_number.toNat < notebook.cells.length then
        (NbEditResult.deleted
            (notebook.cells.get ⟨cell_number.toNat, h⟩).cell_type
            cell_number.toNat,
          some { notebook with
                  cells := notebook.cells.eraseIdx cell_number.toNat })
      else (NbEditResult.cellMissing cell_number, doc)
    else (NbEditResult.invalidMode edit_mode, doc)

/-- Claim C7: a replace edit whose resulting cell type is code always
leaves the target cell with empty outputs and a null execution count,
regardless of the prior outputs or execution state of the cell. -/
theorem C7_replace_resets_code_cell (nb : Notebook) (cell_number : Int)
    (new_source : String) (cell_type : Option String)
    (hnn : 0 ≤ cell_number)
    (h : cell_number.toNat < nb.cells.length)
    (hcode :
      pyOrStr cell_type (nb.cells.get ⟨cell_number.toNat, h⟩).cell_type =
        "code") :
    ∃ nb',
      notebook_edit_tool (some nb) true cell_number new_source cell_type
          "replace" =
        (NbEditResult.replaced cell_number, some nb') ∧
      nb'.cells.length = nb.cells.length ∧
      ∃ cell, nb'.cells[cell_number.toNat]? = some cell ∧
        cell.cell_type = "code" ∧ cell.outputs = some [] ∧
        cell.execution_count = some none := by
  rw [notebook_edit_tool]
  rw [if_neg (by simp), if_neg (by simp), if_neg (by omega), if_pos rfl,
    dif_pos (by simpa using h)]
  simp only [Option.getD_some] at hcode ⊢
  rw [if_pos hcode]
  refine ⟨_, rfl, by simp, ?_⟩
  refine ⟨{ nb.cells.get ⟨cell_number.toNat, h⟩ with
      cell_type := pyOrStr cell_type (nb.cells.get ⟨cell_number.toNat, h⟩).cell_type
      source := new_source.splitOn "\n"
      outputs := some []
      execution_count := some none }, ?_, hcode, rfl, rfl⟩
  rw [List.getElem?_eq_getElem (by simpa using h)]
  rw [List.getElem_set_self]

/-- Witness for C7: replacing a markdown-typed cell full of outputs with an
explicit code type resets outputs and execution count. -/
theorem C7_replace_resets_code_cell_witness :
    (0 : Int) ≤ 0 ∧
    ∃ h : (0 : Int).toNat <
      (Notebook.mk [⟨"code", ["old"], [], some ["stale output"], some (some 7)⟩]
        [] 4 4).cells.length,
      pyOrStr (some "code")
        ((Notebook.mk [⟨"code", ["old"], [], some ["stale output"], some (some 7)⟩]
          [] 4 4).cells.get ⟨(0 : Int).toNat, h⟩).cell_type = "code" ∧
      ∃ nb',
        notebook_edit_tool
            (some (Notebook.mk
              [⟨"code", ["old"], [], some ["stale output"], some (some 7)⟩]
              [] 4 4)) true 0 "print(1)" (some "code") "replace" =
          (NbEditResult.replaced 0, some nb') ∧
        nb'.cells.length =
          (Notebook.mk [⟨"code", ["old"], [], some ["stale output"], some (some 7)⟩]
            [] 4 4).cells.length ∧
        ∃ cell, nb'.cells[(0 : Int).toNat]? = some cell ∧
          cell.cell_type = "code" ∧ cell.outputs = some [] ∧
          cell.execution_count = some none :=
  ⟨le_refl 0, by decide, by decide,
    C7_replace_resets_code_cell
      (Notebook.mk [⟨"code", ["old"], [], some ["stale output"], some (some 7)⟩]
        [] 4 4)
      0 "print(1)" (some "code") (le_refl 0) (by decide) (by decide)⟩

/-- Counterexample to claim C8 as stated: an insert at the integer index -1
is rejected with the non-negativity error instead of being clamped into
[0, length], and nothing is written. -/
theorem C8_insert_counterexample :
    notebook_edit_tool (some defaultNotebook) true (-1) "x" (some "code")
        "insert" =
      (NbEditResult.negativeCellNumber (-1), some defaultNotebook) := by
  decide

/-- Claim C8 (amended): for every notebook document and every NON-NEGATIVE
insertion index, an insert clamps the index into [0, length] rather than
erroring — in particular an insert at any index greater than the cell count
appends, so the new cell count is the old count plus one and the new cell
is last; a negative index is instead rejected with a non-negativity
error. -/
theorem C8_insert_clamps (nb : Notebook) (cell_number : Int)
    (new_source : String) (t : String)
    (hnn : 0 ≤ cell_number) (ht : t ≠ "") :
    ∃ nb',
      notebook_edit_tool (some nb) true cell_number new_source (some t)
          "insert" =
        (NbEditResult.inserted t (min cell_number.toNat nb.cells.length),
          some nb') ∧
      nb'.cells.length = nb.cells.length + 1 ∧
      (nb.cells.length ≤ cell_number.toNat →
        nb'.cells.getLast? =
          some ⟨t, new_source.splitOn "\n", [],
            if t = "code" then some [] else none,
            if t = "code" then some none else none⟩) := by
  rw [notebook_edit_tool]
  rw [if_neg (by simp), if_neg (by simp), if_neg (by omega), if_neg (by simp),
    if_pos rfl, if_neg (by simp [pyStrFalsy, ht])]
  simp only [Option.getD_some]
  have hpos :
      (if nb.cells.length < cell_number.toNat then nb.cells.length
        else cell_number.toNat) = min cell_number.toNat nb.cells.length := by
    rcases Nat.lt_or_ge nb.cells.length cell_number.toNat with hlt | hge
    · rw [if_pos hlt, Nat.min_eq_right (Nat.le_of_lt hlt)]
    · rw [if_neg (Nat.not_lt.mpr hge), Nat.min_eq_left hge]
  rw [hpos]
  refine ⟨_, rfl, ?_, ?_⟩
  · simp only
    rw [List.length_insertIdx _ _ (Nat.min_le_right _ _)]
  · intro happend
    simp only
    have hmin : min cell_number.toNat nb.cells.length = nb.cells.length :=
      Nat.min_eq_right happend
    rw [hmin, List.insertIdx_length_self, List.getLast?_concat]

/-- Witness for C8 (amended): inserting at index 5 into a one-cell notebook
appends. -/
theorem C8_insert_clamps_witness :
    (0 : Int) ≤ 5 ∧ ("markdown" : String) ≠ "" ∧
    ∃ nb',
      notebook_edit_tool
          (some (Notebook.mk [⟨"code", ["x"], [], some [], some none⟩] [] 4 4))
          true 5 "note" (some "markdown") "insert" =
        (NbEditResult.inserted "markdown"
          (min (5 : Int).toNat
            (Notebook.mk [⟨"code", ["x"], [], some [], some none⟩] [] 4 4).cells.length),
          some nb') ∧
      nb'.cells.length =
        (Notebook.mk [⟨"code", ["x"], [], some [], some none⟩] [] 4 4).cells.length + 1 ∧
      ((Notebook.mk [⟨"code", ["x"], [], some [], some none⟩] [] 4 4).cells.length ≤
          (5 : Int).toNat →
        nb'.cells.getLast? =
          some ⟨"markdown", ("note" : String).splitOn "\n", [],
            if ("markdown" : String) = "code" then some [] else none,
            if ("markdown" : String) = "code" then some none else none⟩) :=
  ⟨by decide, by decide,
    C8_insert_clamps
      (Notebook.mk [⟨"code", ["x"], [], some [], some none⟩] [] 4 4)
      5 "note" "markdown" (by decide) (by decide)⟩

/-- Python `str.rstrip()` restricted to the whitespace characters that
`Char.isWhitespace` covers: drop trailing whitespace. -/
def pyRstrip (s : String) : String :=
  String.mk ((s.toList.reverse.dropWhile Char.isWhitespace).reverse)

/-- Python list slice `lines[o : stop]` for a non-negative start `o` (the
code clamps the offset to be non-negative first); a negative `stop` counts
from the end of the list, as in Python. -/
def pySlice (lines : List String) (o : Nat) (stop : Int) : List String :=
  let stopIdx : Nat :=
    if stop < 0 then (lines.length + stop).toNat
    else min stop.toNat lines.length
  (lines.take stopIdx).drop o

/-- Pad a rendered number on the left with spaces to width 6, as the
fixed-width decimal format in the source does. -/
def viewPadNumber (i : Nat) : String :=
  String.mk (List.replicate (6 - (toString i).length) ' ') ++ toString i

/-- Format one output line of `view_tool`: fixed-width 1-based line number,
a tab, then the line — truncated with a visible marker beyond 2000
characters — with trailing whitespace stripped. -/
def viewFormatLine (i : Nat) (line : String) : String :=
  let truncatedLine :=
    if 2000 < line.length then
      String.mk (line.toList.take 2000) ++ "... [truncated]"
    else line
  viewPadNumber i ++ "\t" ++ pyRstrip truncatedLine

/-- `view_tool(file_path, offset, limit)` from `src/code_tools.py`, for an
existing, non-directory, non-binary file (the three guards before this
point report path-specific messages); `lines` is the result of Python
`readlines()` on the content, line terminators kept. Returns the exact
message string the function returns. -/
def view_tool (lines : List String) (offset limit : Option Int) : String :=
  let o0 := offset.getD 0
  let o : Int := if o0 < 0 then 0 else o0
  if (lines.length : Int) ≤ o then
    "File position is beyond the end of the file"
  else
    let lim := limit.getD 2000
    let sliced := pySlice lines o.toNat (o + lim)
    let formatted :=
      sliced.mapIdx (fun i line => viewFormatLine (o.toNat + 1 + i) line)
    if formatted.isEmpty then "[Empty file]"
    else String.intercalate "\n" formatted

/-- Counterexample to claim C9 as stated: a file with zero lines viewed at
offset 0 yields the beyond-end-of-file report, not the empty-read report,
because offset 0 is already "at" end-of-file when there are no lines. -/
theorem C9_view_counterexample :
    view_tool [] (some 0) none =
      "File position is beyond the end of the file" ∧
    view_tool [] (some 0) none ≠ "[Empty file]" := by
  constructor
  · rfl
  · decide

/-- Claim C9 (amended): the beyond-end-of-file report and the empty-read
report are distinct conditions, but any offset at or beyond the line count
— including offset 0 on a zero-line file — yields the beyond-end-of-file
report; the empty-read report arises when the offset is in range and the
requested slice is empty (for example a limit of 0 on a one-line file). -/
theorem C9_view_eof_vs_empty (lines : List String) (offset limit : Option Int)
    (hbeyond : (lines.length : Int) ≤
      (if offset.getD 0 < 0 then 0 else offset.getD 0)) :
    view_tool lines offset limit =
      "File position is beyond the end of the file" ∧
    "File position is beyond the end of the file" ≠ "[Empty file]" ∧
    view_tool ["a\n"] (some 0) (some 0) = "[Empty file]" := by
  refine ⟨?_, by decide, by rfl⟩
  rw [view_tool]
  rw [if_pos hbeyond]

/-- Witness for C9 (amended): the zero-line file at offset 0. -/
theorem C9_view_eof_vs_empty_witness :
    ((([] : List String).length : Int) ≤
      (if ((some (0 : Int)).getD 0) < 0 then 0 else (some (0 : Int)).getD 0)) ∧
    (view_tool [] (some 0) none =
      "File position is beyond the end of the file" ∧
    "File position is beyond the end of the file" ≠ "[Empty file]" ∧
    view_tool ["a\n"] (some 0) (some 0) = "[Empty file]") :=
  ⟨by decide, C9_view_eof_vs_empty [] (some 0) none (by decide)⟩

end CodeTools
